import Mathlib

/-!
Shallow embedding of the Dgraph adapter for Auth.js
(`packages/adapter-dgraph/src/index.ts`).

Each adapter method is embedded as a pure Lean function over an abstract
stateful transport. One `await c.run(document, variables)` call in the
source becomes one `Transport.run` call here; the GraphQL document plus its
variables is abstracted into a `Req` constructor that records the operation,
the interpolated fragment strings and the variables. Responses are typed per
request by `RespOf`. JavaScript `null`/`undefined` both become `none`
(optional chaining treats them identically, and every null-check in the
source is a truthiness check), and a JSON object whose relevant field is
absent is collapsed into the `none` of the enclosing `Option` — the source
can never distinguish `result == null` from `result.user == null`.

Each handler returns the final transport state, the list of requests it
issued (in order) and either its result or the error it threw: `Error`
objects thrown by the handler itself become `RunError.adapter msg`, and
errors thrown by the transport collaborator become `RunError.transport e`
and short-circuit exactly as a rejected `await` does.
-/

/-- An Auth.js `AdapterUser` record. -/
structure User where
  id : String
  name : Option String
  email : String
  emailVerified : Option Int
  image : Option String
deriving DecidableEq

/-- A user insert/patch payload: every `AdapterUser` field except `id`
(`const \x7b id, ...userWithoutId \x7d = user`). -/
structure UserInput where
  name : Option String
  email : String
  emailVerified : Option Int
  image : Option String
deriving DecidableEq

/-- Drops the `id` field of a user, as the destructuring in `createUser` and
`updateUser` does. -/
def stripUserId (u : User) : UserInput :=
  ⟨u.name, u.email, u.emailVerified, u.image⟩

/-- An Auth.js `AdapterAccount` record (token fields beyond the composite
key are not inspected by any handler and are omitted). -/
structure Account where
  id : String
  userId : String
  provider : String
  providerAccountId : String
deriving DecidableEq

/-- The `addAccount` payload built by `linkAccount`:
`\x7b ...inputWithoutId, user: \x7b id: userId \x7d \x7d`. -/
structure AccountInput where
  provider : String
  providerAccountId : String
  user : String
deriving DecidableEq

/-- Builds the `linkAccount` payload from an account: strips `id` and
`userId` and nests the owning user reference by id. -/
def stripAccountId (a : Account) : AccountInput :=
  ⟨a.provider, a.providerAccountId, a.userId⟩

/-- An Auth.js `AdapterSession` record. -/
structure Session where
  sessionToken : String
  expires : Int
  userId : String
deriving DecidableEq

/-- The `addSession` payload built by `createSession`:
`\x7b sessionToken, expires, user: \x7b id: userId \x7d \x7d`. -/
structure SessionInput where
  sessionToken : String
  expires : Int
  user : String
deriving DecidableEq

/-- An Auth.js `VerificationToken` record. -/
structure VerificationToken where
  identifier : String
  token : String
  expires : Int
deriving DecidableEq

/-- The `accounts \x7b id \x7d` sub-selection of the `deleteUser` fetch. -/
structure AccountRef where
  id : String
deriving DecidableEq

/-- The `sessions \x7b sessionToken \x7d` sub-selection of the `deleteUser`
fetch. -/
structure SessionRef where
  sessionToken : String
deriving DecidableEq

/-- The record fetched by the first `deleteUser` query:
`AdapterUser & \x7b accounts: \x7b id \x7d[], sessions: \x7b sessionToken \x7d[] \x7d`. -/
structure UserWithRefs extends User where
  accounts : List AccountRef
  sessions : List SessionRef
deriving DecidableEq

/-- One element of the `getSessionAndUser` response array; either side of
the join may be absent. -/
structure SURespEntry where
  session : Option Session
  user : Option User
deriving DecidableEq

/-- The non-null result of `getSessionAndUser`, after both sides of the
join have been checked. -/
structure SessionUserPair where
  session : Session
  user : User
deriving DecidableEq

/-- A GraphQL request issued by the adapter: one constructor per distinct
document in the source, carrying the fragment strings interpolated into the
document and the variables sent with it. -/
inductive Req where
  | addUser (fragment : String) (input : List UserInput)
  | getUserQ (fragment : String) (id : String)
  | queryUserByEmail (fragment : String) (email : String)
  | queryAccount (fragment : String) (providerAccountId : String) (provider : String)
  | updateUserM (fragment : String) (id : String) (input : UserInput)
  | getUserWithRefs (fragment : String) (userId : String)
  | deleteUserM (fragment : String) (userId : List String)
  | deleteAccountsAndSessions (accountIds : List String) (sessionTokens : List String)
  | addAccount (fragment : String) (input : List AccountInput)
  | deleteAccountPair (fragment : String) (providerAccountId : String) (provider : String)
  | getSessionAndUserQ (sessionFragment : String) (userFragment : String) (sessionToken : String)
  | addSession (fragment : String) (input : List SessionInput)
  | deleteSessionM (fragment : String) (sessionToken : String)
  | addVerificationToken (input : List VerificationToken)
  | deleteVerificationToken (fragment : String) (token : String) (identifier : String)
deriving DecidableEq

/-- The shape of the parsed JSON data each request's response is read as
(the type argument of `c.run` in the source, with absence collapsed into
`Option`). The payload of `deleteAccountsAndSessions` is the
`numUids` pair, which the handler never inspects. -/
def RespOf : Req → Type
  | .addUser _ _ => Option (List User)
  | .getUserQ _ _ => Option User
  | .queryUserByEmail _ _ => Option (List User)
  | .queryAccount _ _ _ => Option (List (Option User))
  | .updateUserM _ _ _ => Option (List User)
  | .getUserWithRefs _ _ => Option (List UserWithRefs)
  | .deleteUserM _ _ => Option (List User)
  | .deleteAccountsAndSessions _ _ => Option (Nat × Nat)
  | .addAccount _ _ => Option (List Account)
  | .deleteAccountPair _ _ _ => Option (List Account)
  | .getSessionAndUserQ _ _ _ => Option (List SURespEntry)
  | .addSession _ _ => Option (List Session)
  | .deleteSessionM _ _ => Option (List Session)
  | .addVerificationToken _ => Option (List VerificationToken)
  | .deleteVerificationToken _ _ _ => Option (List VerificationToken)

/-- The transport collaborator (`c.run`): given its state and a request it
returns the new state and either the parsed response data or the error it
throws. The adapter owns no transport state; `σ` lets a backend model (or a
request log) live behind the same interface.  -/
structure Transport (σ : Type) where
  run : σ → (r : Req) → σ × Except String (RespOf r)

/-- An error surfaced by an adapter call: either an `Error` thrown by the
handler itself or an error propagated from the transport collaborator. -/
inductive RunError where
  | adapter (msg : String)
  | transport (e : String)
deriving DecidableEq

/-- The resolved fragment strings used by the handlers, one per entity. -/
structure Fragments where
  User : String
  Account : String
  Session : String
  VerificationToken : String
deriving DecidableEq

/-- The `fragments` field of `DgraphAdapterOptions`: a per-entity optional
override. -/
structure FragmentOverrides where
  User : Option String
  Account : Option String
  Session : Option String
  VerificationToken : Option String
deriving DecidableEq

/-- `DgraphAdapterOptions` (only the `fragments` field exists). -/
structure DgraphAdapterOptions where
  fragments : Option FragmentOverrides
deriving DecidableEq

/-- `\x7b ...defaultFragments, ...options?.fragments \x7d`: each entity key keeps
its default unless the override object is present and carries that key. -/
def mergeFragments (defaults : Fragments) : Option FragmentOverrides → Fragments
  | none => defaults
  | some ov =>
    ⟨ov.User.getD defaults.User, ov.Account.getD defaults.Account,
     ov.Session.getD defaults.Session,
     ov.VerificationToken.getD defaults.VerificationToken⟩

/-- `createUser`: strips the caller-supplied `id`, issues the `addUser`
mutation, throws when the response or its `user` field is missing
(`!result || !result.user`) and otherwise returns `result.user[0]` — which
is `undefined` (here `none`) when the array is empty. -/
def createUser {σ : Type} (fr : Fragments) (T : Transport σ) (s : σ) (user : User) :
    σ × List Req × Except RunError (Option User) :=
  match T.run s (Req.addUser fr.User [stripUserId user]) with
  | (s1, .error e) =>
    (s1, [Req.addUser fr.User [stripUserId user]], .error (.transport e))
  | (s1, .ok result) =>
    match result with
    | none =>
      (s1, [Req.addUser fr.User [stripUserId user]],
       .error (.adapter "Failed to create user"))
    | some users =>
      (s1, [Req.addUser fr.User [stripUserId user]], .ok users.head?)

/-- `getUser`: a single `getUser(id:)` query whose response is returned
as-is. -/
def getUser {σ : Type} (fr : Fragments) (T : Transport σ) (s : σ) (id : String) :
    σ × List Req × Except RunError (Option User) :=
  match T.run s (Req.getUserQ fr.User id) with
  | (s1, .error e) => (s1, [Req.getUserQ fr.User id], .error (.transport e))
  | (s1, .ok result) => (s1, [Req.getUserQ fr.User id], .ok result)

/-- `getUserByEmail`: `queryUser` filtered by email;
returns `result?.user?.[0] || null`. -/
def getUserByEmail {σ : Type} (fr : Fragments) (T : Transport σ) (s : σ) (email : String) :
    σ × List Req × Except RunError (Option User) :=
  match T.run s (Req.queryUserByEmail fr.User email) with
  | (s1, .error e) =>
    (s1, [Req.queryUserByEmail fr.User email], .error (.transport e))
  | (s1, .ok result) =>
    (s1, [Req.queryUserByEmail fr.User email], .ok (result.bind List.head?))

/-- `getUserByAccount`: `queryAccount` filtered by the composite
(provider, providerAccountId) key, joined through to the owning user;
returns `result?.[0]?.user || null`. -/
def getUserByAccount {σ : Type} (fr : Fragments) (T : Transport σ) (s : σ)
    (provider : String) (providerAccountId : String) :
    σ × List Req × Except RunError (Option User) :=
  match T.run s (Req.queryAccount fr.User providerAccountId provider) with
  | (s1, .error e) =>
    (s1, [Req.queryAccount fr.User providerAccountId provider], .error (.transport e))
  | (s1, .ok result) =>
    (s1, [Req.queryAccount fr.User providerAccountId provider],
     .ok (result.bind List.head?).join)

/-- `updateUser`: splits `id` from the patch, issues the `updateUser`
mutation keyed by id, throws when `!result?.user?.[0]`. -/
def updateUser {σ : Type} (fr : Fragments) (T : Transport σ) (s : σ) (user : User) :
    σ × List Req × Except RunError User :=
  match T.run s (Req.updateUserM fr.User user.id (stripUserId user)) with
  | (s1, .error e) =>
    (s1, [Req.updateUserM fr.User user.id (stripUserId user)], .error (.transport e))
  | (s1, .ok result) =>
    match result.bind List.head? with
    | none =>
      (s1, [Req.updateUserM fr.User user.id (stripUserId user)],
       .error (.adapter "Failed to update user"))
    | some u =>
      (s1, [Req.updateUserM fr.User user.id (stripUserId user)], .ok u)

/-- `deleteUser`: fetch the user together with linked account ids and
session tokens (return `null` when not found), delete the user by id
(throw when the mutation reports no deleted record), then — only when the
fetched user had at least one linked account or session — issue one request
holding both the delete-accounts-by-ids and delete-sessions-by-tokens
clauses, and finally return the deleted record. -/
def deleteUser {σ : Type} (fr : Fragments) (T : Transport σ) (s : σ) (userId : String) :
    σ × List Req × Except RunError (Option User) :=
  match T.run s (Req.getUserWithRefs fr.User userId) with
  | (s1, .error e) =>
    (s1, [Req.getUserWithRefs fr.User userId], .error (.transport e))
  | (s1, .ok fetchResult) =>
    match fetchResult.bind List.head? with
    | none => (s1, [Req.getUserWithRefs fr.User userId], .ok none)
    | some user =>
      match T.run s1 (Req.deleteUserM fr.User [userId]) with
      | (s2, .error e) =>
        (s2, [Req.getUserWithRefs fr.User userId, Req.deleteUserM fr.User [userId]],
         .error (.transport e))
      | (s2, .ok deleteResult) =>
        match deleteResult.bind List.head? with
        | none =>
          (s2, [Req.getUserWithRefs fr.User userId, Req.deleteUserM fr.User [userId]],
           .error (.adapter "Failed to delete user"))
        | some deletedUser =>
          if user.accounts.length > 0 || user.sessions.length > 0 then
            match T.run s2 (Req.deleteAccountsAndSessions
                (user.accounts.map (fun x => x.id))
                (user.sessions.map (fun x => x.sessionToken))) with
            | (s3, .error e) =>
              (s3, [Req.getUserWithRefs fr.User userId, Req.deleteUserM fr.User [userId],
                    Req.deleteAccountsAndSessions (user.accounts.map (fun x => x.id))
                      (user.sessions.map (fun x => x.sessionToken))],
               .error (.transport e))
            | (s3, .ok _) =>
              (s3, [Req.getUserWithRefs fr.User userId, Req.deleteUserM fr.User [userId],
                    Req.deleteAccountsAndSessions (user.accounts.map (fun x => x.id))
                      (user.sessions.map (fun x => x.sessionToken))],
               .ok (some deletedUser))
          else
            (s2, [Req.getUserWithRefs fr.User userId, Req.deleteUserM fr.User [userId]],
             .ok (some deletedUser))

/-- `linkAccount`: strips `id` and `userId`, nests the owning user by id,
issues `addAccount`, throws when `!result?.account?.[0]`. -/
def linkAccount {σ : Type} (fr : Fragments) (T : Transport σ) (s : σ) (account : Account) :
    σ × List Req × Except RunError Account :=
  match T.run s (Req.addAccount fr.Account [stripAccountId account]) with
  | (s1, .error e) =>
    (s1, [Req.addAccount fr.Account [stripAccountId account]], .error (.transport e))
  | (s1, .ok result) =>
    match result.bind List.head? with
    | none =>
      (s1, [Req.addAccount fr.Account [stripAccountId account]],
       .error (.adapter "Failed to link account"))
    | some a =>
      (s1, [Req.addAccount fr.Account [stripAccountId account]], .ok a)

/-- `unlinkAccount`: one `deleteAccount` mutation by the composite
(provider, providerAccountId) filter; returns `result?.account?.[0]`
with no null-check and no coercion. -/
def unlinkAccount {σ : Type} (fr : Fragments) (T : Transport σ) (s : σ)
    (provider : String) (providerAccountId : String) :
    σ × List Req × Except RunError (Option Account) :=
  match T.run s (Req.deleteAccountPair fr.Account providerAccountId provider) with
  | (s1, .error e) =>
    (s1, [Req.deleteAccountPair fr.Account providerAccountId provider],
     .error (.transport e))
  | (s1, .ok result) =>
    (s1, [Req.deleteAccountPair fr.Account providerAccountId provider],
     .ok (result.bind List.head?))

/-- `getSessionAndUser`: a single query joining session and user by
sessionToken; returns `null` when there is no entry or when either side of
the join is missing. -/
def getSessionAndUser {σ : Type} (fr : Fragments) (T : Transport σ) (s : σ)
    (sessionToken : String) :
    σ × List Req × Except RunError (Option SessionUserPair) :=
  match T.run s (Req.getSessionAndUserQ fr.Session fr.User sessionToken) with
  | (s1, .error e) =>
    (s1, [Req.getSessionAndUserQ fr.Session fr.User sessionToken],
     .error (.transport e))
  | (s1, .ok result) =>
    match result.bind List.head? with
    | none =>
      (s1, [Req.getSessionAndUserQ fr.Session fr.User sessionToken], .ok none)
    | some entry =>
      match entry.user, entry.session with
      | some u, some sess =>
        (s1, [Req.getSessionAndUserQ fr.Session fr.User sessionToken],
         .ok (some ⟨sess, u⟩))
      | _, _ =>
        (s1, [Req.getSessionAndUserQ fr.Session fr.User sessionToken], .ok none)

/-- `createSession`: throws before any request when `userId` is
`undefined`; otherwise issues `addSession` with the user nested by id and
throws when `!result?.session?.[0]`. -/
def createSession {σ : Type} (fr : Fragments) (T : Transport σ) (s : σ)
    (sessionToken : String) (userId : Option String) (expires : Int) :
    σ × List Req × Except RunError Session :=
  match userId with
  | none => (s, [], .error (.adapter "userId is undefined in createSession"))
  | some uid =>
    match T.run s (Req.addSession fr.Session [⟨sessionToken, expires, uid⟩]) with
    | (s1, .error e) =>
      (s1, [Req.addSession fr.Session [⟨sessionToken, expires, uid⟩]],
       .error (.transport e))
    | (s1, .ok result) =>
      match result.bind List.head? with
      | none =>
        (s1, [Req.addSession fr.Session [⟨sessionToken, expires, uid⟩]],
         .error (.adapter "Failed to create session"))
      | some sess =>
        (s1, [Req.addSession fr.Session [⟨sessionToken, expires, uid⟩]], .ok sess)

/-- `deleteSession`: one `deleteSession` mutation by sessionToken;
returns `result?.session?.[0] || null`. -/
def deleteSession {σ : Type} (fr : Fragments) (T : Transport σ) (s : σ)
    (sessionToken : String) :
    σ × List Req × Except RunError (Option Session) :=
  match T.run s (Req.deleteSessionM fr.Session sessionToken) with
  | (s1, .error e) =>
    (s1, [Req.deleteSessionM fr.Session sessionToken], .error (.transport e))
  | (s1, .ok result) =>
    (s1, [Req.deleteSessionM fr.Session sessionToken], .ok (result.bind List.head?))

/-- `createVerificationToken`: issues `addVerificationToken` (this document
interpolates no fragment); throws when no created record comes back. -/
def createVerificationToken {σ : Type} (T : Transport σ) (s : σ)
    (input : VerificationToken) :
    σ × List Req × Except RunError VerificationToken :=
  match T.run s (Req.addVerificationToken [input]) with
  | (s1, .error e) =>
    (s1, [Req.addVerificationToken [input]], .error (.transport e))
  | (s1, .ok result) =>
    match result.bind List.head? with
    | none =>
      (s1, [Req.addVerificationToken [input]],
       .error (.adapter "Failed to create verification token"))
    | some t =>
      (s1, [Req.addVerificationToken [input]], .ok t)

/-- `useVerificationToken`: one `deleteVerificationToken` mutation by the
composite (identifier, token) filter, returning the deleted record —
`result?.verificationToken?.[0] || null`. -/
def useVerificationToken {σ : Type} (fr : Fragments) (T : Transport σ) (s : σ)
    (identifier : String) (token : String) :
    σ × List Req × Except RunError (Option VerificationToken) :=
  match T.run s (Req.deleteVerificationToken fr.VerificationToken token identifier) with
  | (s1, .error e) =>
    (s1, [Req.deleteVerificationToken fr.VerificationToken token identifier],
     .error (.transport e))
  | (s1, .ok result) =>
    (s1, [Req.deleteVerificationToken fr.VerificationToken token identifier],
     .ok (result.bind List.head?))

/-- Modelled from the spec: the Dgraph backend state (the server itself is
an external collaborator, out of scope of the adapter sources). It holds
the four record collections of the data model plus a counter for
backend-generated ids ("IDs are generated by the backend"). -/
structure Backend where
  users : List User
  accounts : List Account
  sessions : List Session
  tokens : List VerificationToken
  nextId : Nat
deriving DecidableEq

/-- Modelled from the spec: a backend-assigned fresh id. -/
def freshId (n : Nat) : String := "id" ++ toString n

/-- Modelled from the spec: the Dgraph server's handling of each adapter
request (the server and its GraphQL semantics are out of scope of the
adapter sources). Queries filter the collections; `get` by id returns the
single match or null; deletes remove every record matching the filter and
report the removed records (or the removed counts for the cascade
mutation); inserts append a record, assigning a fresh id where the entity
has one. The adapter only ever sends single-element insert payloads, so
inserts handle the head of the input list. -/
def serve (b : Backend) : (r : Req) → Backend × RespOf r
  | .addUser _ input =>
    match input with
    | [] => (b, some [])
    | i :: _ =>
      let u : User := ⟨freshId b.nextId, i.name, i.email, i.emailVerified, i.image⟩
      ({ b with users := b.users ++ [u], nextId := b.nextId + 1 }, some [u])
  | .getUserQ _ id => (b, b.users.find? (fun u => decide (u.id = id)))
  | .queryUserByEmail _ email =>
    (b, some (b.users.filter (fun u => decide (u.email = email))))
  | .queryAccount _ pid p =>
    (b, some ((b.accounts.filter
        (fun a => decide (a.providerAccountId = pid ∧ a.provider = p))).map
      (fun a => b.users.find? (fun u => decide (u.id = a.userId)))))
  | .updateUserM _ id input =>
    let updated := b.users.map (fun u =>
      if u.id = id then ⟨u.id, input.name, input.email, input.emailVerified, input.image⟩
      else u)
    ({ b with users := updated }, some (updated.filter (fun u => decide (u.id = id))))
  | .getUserWithRefs _ uid =>
    (b, match b.users.find? (fun u => decide (u.id = uid)) with
      | none => some []
      | some u =>
        some [⟨u,
          (b.accounts.filter (fun a => decide (a.userId = uid))).map (fun a => ⟨a.id⟩),
          (b.sessions.filter (fun sn => decide (sn.userId = uid))).map
            (fun sn => ⟨sn.sessionToken⟩)⟩])
  | .deleteUserM _ ids =>
    ({ b with users := b.users.filter (fun u => decide (¬ u.id ∈ ids)) },
     some (b.users.filter (fun u => decide (u.id ∈ ids))))
  | .deleteAccountsAndSessions aids toks =>
    ({ b with
        accounts := b.accounts.filter (fun a => decide (¬ a.id ∈ aids)),
        sessions := b.sessions.filter (fun sn => decide (¬ sn.sessionToken ∈ toks)) },
     some ((b.accounts.filter (fun a => decide (a.id ∈ aids))).length,
           (b.sessions.filter (fun sn => decide (sn.sessionToken ∈ toks))).length))
  | .addAccount _ input =>
    match input with
    | [] => (b, some [])
    | i :: _ =>
      let a : Account := ⟨freshId b.nextId, i.user, i.provider, i.providerAccountId⟩
      ({ b with accounts := b.accounts ++ [a], nextId := b.nextId + 1 }, some [a])
  | .deleteAccountPair _ pid p =>
    let kept := b.accounts.filter
      (fun a => decide (¬ (a.providerAccountId = pid ∧ a.provider = p)))
    ({ b with accounts := kept },
     some (b.accounts.filter
        (fun a => decide (a.providerAccountId = pid ∧ a.provider = p))))
  | .getSessionAndUserQ _ _ tok =>
    (b, some ((b.sessions.filter (fun sn => decide (sn.sessionToken = tok))).map
      (fun sn => ⟨some sn, b.users.find? (fun u => decide (u.id = sn.userId))⟩)))
  | .addSession _ input =>
    match input with
    | [] => (b, some [])
    | i :: _ =>
      let sn : Session := ⟨i.sessionToken, i.expires, i.user⟩
      ({ b with sessions := b.sessions ++ [sn] }, some [sn])
  | .deleteSessionM _ tok =>
    let kept := b.sessions.filter (fun sn => decide (¬ sn.sessionToken = tok))
    ({ b with sessions := kept },
     some (b.sessions.filter (fun sn => decide (sn.sessionToken = tok))))
  | .addVerificationToken input =>
    ({ b with tokens := b.tokens ++ input }, some input)
  | .deleteVerificationToken _ tok ident =>
    let kept := b.tokens.filter
      (fun t => decide (¬ (t.token = tok ∧ t.identifier = ident)))
    ({ b with tokens := kept },
     some (b.tokens.filter (fun t => decide (t.token = tok ∧ t.identifier = ident))))

/-- The modelled backend wrapped as a transport: it never throws. -/
def serveT : Transport Backend :=
  ⟨fun b r => ((serve b r).1, .ok (serve b r).2)⟩

/-- A backend transport whose cascade-cleanup mutation always throws, while
every other request is served normally; used to examine the `deleteUser`
error path. -/
def cascadeFailT : Transport Backend :=
  ⟨fun b r =>
    match r with
    | .deleteAccountsAndSessions _ _ => (b, .error "cascade failed")
    | r => ((serve b r).1, .ok (serve b r).2)⟩

/-- A response carrying zero records for every request: the `not found` /
`write produced nothing` shape (`\x7b user: [] \x7d` and the like). -/
def noRecordResp : (r : Req) → RespOf r
  | .addUser _ _ => some []
  | .getUserQ _ _ => none
  | .queryUserByEmail _ _ => some []
  | .queryAccount _ _ _ => some []
  | .updateUserM _ _ _ => some []
  | .getUserWithRefs _ _ => some []
  | .deleteUserM _ _ => some []
  | .deleteAccountsAndSessions _ _ => some (0, 0)
  | .addAccount _ _ => some []
  | .deleteAccountPair _ _ _ => some []
  | .getSessionAndUserQ _ _ _ => some []
  | .addSession _ _ => some []
  | .deleteSessionM _ _ => some []
  | .addVerificationToken _ => some []
  | .deleteVerificationToken _ _ _ => some []

/-- A stateless transport answering every request with zero records. -/
def noRecordT : Transport Unit :=
  ⟨fun s r => (s, .ok (noRecordResp r))⟩

/-- A stateless transport answering every request with a missing payload
(`result` itself null, or its record field absent). -/
def nullRespT : Transport Unit :=
  ⟨fun s r => (s,
    .ok (match r with
      | .addUser _ _ => (none : RespOf (.addUser default default))
      | .getUserQ _ _ => none
      | .queryUserByEmail _ _ => none
      | .queryAccount _ _ _ => none
      | .updateUserM _ _ _ => none
      | .getUserWithRefs _ _ => none
      | .deleteUserM _ _ => none
      | .deleteAccountsAndSessions _ _ => none
      | .addAccount _ _ => none
      | .deleteAccountPair _ _ _ => none
      | .getSessionAndUserQ _ _ _ => none
      | .addSession _ _ => none
      | .deleteSessionM _ _ => none
      | .addVerificationToken _ => none
      | .deleteVerificationToken _ _ _ => none))⟩

/-- Concrete fragment strings for witnesses. -/
def sampleFragments : Fragments :=
  ⟨"fragment UserFragment on User", "fragment AccountFragment on Account",
   "fragment SessionFragment on Session",
   "fragment VerificationTokenFragment on VerificationToken"⟩

/-- A sample user record. -/
def u0 : User := ⟨"u1", none, "ada@example.com", none, none⟩

/-- A sample account linked to `u0`. -/
def acc0 : Account := ⟨"a1", "u1", "github", "gh-1"⟩

/-- A sample session linked to `u0`. -/
def sess0 : Session := ⟨"tok1", 7, "u1"⟩

/-- A sample verification token. -/
def vt0 : VerificationToken := ⟨"ada@example.com", "vt-1", 7⟩

/-- A sample backend holding one of each record. -/
def b0 : Backend := ⟨[u0], [acc0], [sess0], [vt0], 0⟩

/-- The adapter record returned by `DgraphAdapter`: one field per method of
the Auth.js adapter contract implemented by the source. -/
structure Adapter (σ : Type) where
  createUser : σ → User → σ × List Req × Except RunError (Option User)
  getUser : σ → String → σ × List Req × Except RunError (Option User)
  getUserByEmail : σ → String → σ × List Req × Except RunError (Option User)
  getUserByAccount : σ → String → String → σ × List Req × Except RunError (Option User)
  updateUser : σ → User → σ × List Req × Except RunError User
  deleteUser : σ → String → σ × List Req × Except RunError (Option User)
  linkAccount : σ → Account → σ × List Req × Except RunError Account
  unlinkAccount : σ → String → String → σ × List Req × Except RunError (Option Account)
  getSessionAndUser : σ → String → σ × List Req × Except RunError (Option SessionUserPair)
  createSession : σ → String → Option String → Int → σ × List Req × Except RunError Session
  deleteSession : σ → String → σ × List Req × Except RunError (Option Session)
  createVerificationToken : σ → VerificationToken → σ × List Req × Except RunError VerificationToken
  useVerificationToken : σ → String → String → σ × List Req × Except RunError (Option VerificationToken)

/-- `DgraphAdapter(client, options)`: resolves the fragments by spreading
the caller's overrides over the defaults (the default fragment strings live
in a separate module and are passed in here) and closes every handler over
the resolved fragments and the transport. -/
def DgraphAdapter {σ : Type} (T : Transport σ) (defaultFragments : Fragments)
    (options : Option DgraphAdapterOptions) : Adapter σ :=
  let fragments := mergeFragments defaultFragments
    (options.bind DgraphAdapterOptions.fragments)
  ⟨fun s u => createUser fragments T s u,
   fun s i => getUser fragments T s i,
   fun s e => getUserByEmail fragments T s e,
   fun s p pid => getUserByAccount fragments T s p pid,
   fun s u => updateUser fragments T s u,
   fun s i => deleteUser fragments T s i,
   fun s a => linkAccount fragments T s a,
   fun s p pid => unlinkAccount fragments T s p pid,
   fun s tok => getSessionAndUser fragments T s tok,
   fun s tok uid exp => createSession fragments T s tok uid exp,
   fun s tok => deleteSession fragments T s tok,
   fun s i => createVerificationToken T s i,
   fun s ident tok => useVerificationToken fragments T s ident tok⟩

/-! Helper lemmas: each single-request handler issues exactly its one
request, whatever the transport answers. -/

/-- `getUser` issues exactly one `getUser(id:)` query. -/
theorem getUser_trace {σ : Type} (fr : Fragments) (T : Transport σ) (s : σ) (i : String) :
    (getUser fr T s i).2.1 = [Req.getUserQ fr.User i] := by
  unfold getUser
  rcases h : T.run s (Req.getUserQ fr.User i) with ⟨s1, r⟩
  cases r <;> simp [h]

/-- `unlinkAccount` issues exactly one composite-filter `deleteAccount`
mutation. -/
theorem unlinkAccount_trace {σ : Type} (fr : Fragments) (T : Transport σ) (s : σ)
    (p : String) (pid : String) :
    (unlinkAccount fr T s p pid).2.1 = [Req.deleteAccountPair fr.Account pid p] := by
  unfold unlinkAccount
  rcases h : T.run s (Req.deleteAccountPair fr.Account pid p) with ⟨s1, r⟩
  cases r <;> simp [h]

/-- `deleteSession` issues exactly one `deleteSession` mutation. -/
theorem deleteSession_trace {σ : Type} (fr : Fragments) (T : Transport σ) (s : σ)
    (tok : String) :
    (deleteSession fr T s tok).2.1 = [Req.deleteSessionM fr.Session tok] := by
  unfold deleteSession
  rcases h : T.run s (Req.deleteSessionM fr.Session tok) with ⟨s1, r⟩
  cases r <;> simp [h]

/-- `useVerificationToken` issues exactly one composite-filter
`deleteVerificationToken` mutation. -/
theorem useVerificationToken_trace {σ : Type} (fr : Fragments) (T : Transport σ) (s : σ)
    (ident : String) (tok : String) :
    (useVerificationToken fr T s ident tok).2.1 =
      [Req.deleteVerificationToken fr.VerificationToken tok ident] := by
  unfold useVerificationToken
  rcases h : T.run s (Req.deleteVerificationToken fr.VerificationToken tok ident)
    with ⟨s1, r⟩
  cases r <;> simp [h]

/-- C4: `createSession` with `userId` undefined throws before any network
interaction: for every transport and every state, the call leaves the
transport state untouched, issues zero requests (the transport collaborator
receives zero calls) and returns the `userId is undefined in createSession`
error. -/
theorem createSession_undefined_userId_no_network {σ : Type} (fr : Fragments)
    (T : Transport σ) (s : σ) (sessionToken : String) (expires : Int) :
    createSession fr T s sessionToken none expires =
      (s, [], .error (.adapter "userId is undefined in createSession")) := rfl

/-- C10: fragment resolution. For every entity key the resolved fragment is
the caller-supplied string when the override object carries that key and
the default fragment otherwise (so overriding one entity leaves the other
three keys' fragments unchanged), omitted options resolve to the defaults,
and the resolved fragment for a key is exactly the one interpolated into
that entity's requests (shown on one representative request per entity key
through `DgraphAdapter`). -/
theorem fragments_per_key_override {σ : Type} (T : Transport σ) (s : σ)
    (d : Fragments) (ov : FragmentOverrides) (i : String) :
    (mergeFragments d (some ov)).User = ov.User.getD d.User ∧
    (mergeFragments d (some ov)).Account = ov.Account.getD d.Account ∧
    (mergeFragments d (some ov)).Session = ov.Session.getD d.Session ∧
    (mergeFragments d (some ov)).VerificationToken =
      ov.VerificationToken.getD d.VerificationToken ∧
    mergeFragments d none = d ∧
    ((DgraphAdapter T d (some ⟨some ov⟩)).getUser s i).2.1 =
      [Req.getUserQ (mergeFragments d (some ov)).User i] ∧
    ((DgraphAdapter T d (some ⟨some ov⟩)).unlinkAccount s i i).2.1 =
      [Req.deleteAccountPair (mergeFragments d (some ov)).Account i i] ∧
    ((DgraphAdapter T d (some ⟨some ov⟩)).deleteSession s i).2.1 =
      [Req.deleteSessionM (mergeFragments d (some ov)).Session i] ∧
    ((DgraphAdapter T d (some ⟨some ov⟩)).useVerificationToken s i i).2.1 =
      [Req.deleteVerificationToken (mergeFragments d (some ov)).VerificationToken i i] := by
  refine ⟨rfl, rfl, rfl, rfl, rfl, ?_, ?_, ?_, ?_⟩
  · simpa [DgraphAdapter] using getUser_trace (mergeFragments d (some ov)) T s i
  · simpa [DgraphAdapter] using unlinkAccount_trace (mergeFragments d (some ov)) T s i i
  · simpa [DgraphAdapter] using deleteSession_trace (mergeFragments d (some ov)) T s i
  · simpa [DgraphAdapter] using useVerificationToken_trace (mergeFragments d (some ov)) T s i i

/-- A nonempty list has a first element. -/
theorem exists_head?_of_ne_nil {α : Type} {l : List α} (h : l ≠ []) :
    ∃ a, l.head? = some a := by
  cases l with
  | nil => exact absurd rfl h
  | cons x xs => exact ⟨x, rfl⟩

/-- `getSessionAndUser` issues exactly one join query. -/
theorem getSessionAndUser_trace {σ : Type} (fr : Fragments) (T : Transport σ) (s : σ)
    (tok : String) :
    (getSessionAndUser fr T s tok).2.1 =
      [Req.getSessionAndUserQ fr.Session fr.User tok] := by
  unfold getSessionAndUser
  rcases h : T.run s (Req.getSessionAndUserQ fr.Session fr.User tok) with ⟨s1, r⟩
  cases r with
  | error e => simp [h]
  | ok v =>
    simp only [h]
    rcases hv : v.bind List.head? with _ | entry
    · simp
    · obtain ⟨es, eu⟩ := entry
      cases eu <;> cases es <;> simp

/-- C8: `unlinkAccount` deletes by the composite (provider,
providerAccountId) filter and returns whatever the backend reports. Over
any transport it issues exactly the one delete mutation and returns `ok` of
the first reported record with no null-check and no coercion — in
particular it never throws on a zero-record response. Against the modelled
backend the mutation removes exactly the matching accounts and the call
returns the first removed record; for a pair with no matching account it
returns a falsy value (`none`) without throwing. -/
theorem unlinkAccount_reports_backend {σ : Type} (fr : Fragments) (T : Transport σ)
    (s : σ) (b : Backend) (p : String) (pid : String) :
    ((unlinkAccount fr T s p pid).2.1 = [Req.deleteAccountPair fr.Account pid p]) ∧
    (∀ s1 v, T.run s (Req.deleteAccountPair fr.Account pid p) = (s1, .ok v) →
      (unlinkAccount fr T s p pid).2.2 = .ok (v.bind List.head?)) ∧
    ((unlinkAccount fr serveT b p pid).1.accounts =
      b.accounts.filter
        (fun a => decide (¬ (a.providerAccountId = pid ∧ a.provider = p)))) ∧
    ((unlinkAccount fr serveT b p pid).2.2 =
      .ok ((b.accounts.filter
        (fun a => decide (a.providerAccountId = pid ∧ a.provider = p))).head?)) ∧
    ((∀ a ∈ b.accounts, ¬ (a.providerAccountId = pid ∧ a.provider = p)) →
      (unlinkAccount fr serveT b p pid).2.2 = .ok none) := by
  refine ⟨unlinkAccount_trace fr T s p pid, ?_, ?_, ?_, ?_⟩
  · intro s1 v h
    unfold unlinkAccount
    simp [h]
  · simp [unlinkAccount, serveT, serve]
  · simp [unlinkAccount, serveT, serve]
  · intro h
    simp [unlinkAccount, serveT, serve]
    intro a ha hpa hp
    exact h a ha ⟨hpa, hp⟩

/-- C7: `getSessionAndUser` issues a single query joining the session and
its owning user by sessionToken filter, returns null when there is no
matching entry and when either side of the join is missing from the
response, and returns the session-and-user pair otherwise. -/
theorem getSessionAndUser_join_spec {σ : Type} (fr : Fragments) (T : Transport σ)
    (s : σ) (tok : String) :
    ((getSessionAndUser fr T s tok).2.1 =
      [Req.getSessionAndUserQ fr.Session fr.User tok]) ∧
    (∀ s1 v, T.run s (Req.getSessionAndUserQ fr.Session fr.User tok) = (s1, .ok v) →
      (v.bind List.head? = none → (getSessionAndUser fr T s tok).2.2 = .ok none) ∧
      (∀ entry, v.bind List.head? = some entry →
        ((entry.session = none ∨ entry.user = none) →
          (getSessionAndUser fr T s tok).2.2 = .ok none) ∧
        (∀ sess u, entry.session = some sess → entry.user = some u →
          (getSessionAndUser fr T s tok).2.2 = .ok (some ⟨sess, u⟩)))) := by
  refine ⟨getSessionAndUser_trace fr T s tok, ?_⟩
  intro s1 v h
  constructor
  · intro hb
    unfold getSessionAndUser
    simp [h, hb]
  · intro entry hb
    constructor
    · intro hor
      unfold getSessionAndUser
      obtain ⟨es, eu⟩ := entry
      rcases hor with hor | hor <;> simp only at hor <;> subst hor
      · cases eu <;> simp [h, hb]
      · simp [h, hb]
    · intro sess u hs hu
      unfold getSessionAndUser
      simp [h, hb, hs, hu]

/-- C5 (amended): `createUser` strips any caller-supplied id before sending
the insert mutation — the variables sent to the backend never contain the
caller's id — and throws when the response or its `user` field is missing;
otherwise it returns the first element of the `user` array, which is
`undefined` (`none`), not an error, when the backend reports zero created
records. -/
theorem createUser_strips_id_and_checks {σ : Type} (fr : Fragments) (T : Transport σ)
    (s : σ) (user : User) :
    ((createUser fr T s user).2.1 = [Req.addUser fr.User [stripUserId user]]) ∧
    (∀ i', stripUserId { user with id := i' } = stripUserId user) ∧
    (∀ s1, T.run s (Req.addUser fr.User [stripUserId user]) = (s1, .ok none) →
      (createUser fr T s user).2.2 = .error (.adapter "Failed to create user")) ∧
    (∀ s1 users, T.run s (Req.addUser fr.User [stripUserId user]) = (s1, .ok (some users)) →
      (createUser fr T s user).2.2 = .ok users.head?) := by
  refine ⟨?_, fun i' => rfl, ?_, ?_⟩
  · unfold createUser
    rcases h : T.run s (Req.addUser fr.User [stripUserId user]) with ⟨s1, r⟩
    cases r with
    | error e => simp [h]
    | ok v => cases v <;> simp [h]
  · intro s1 h
    unfold createUser
    simp [h]
  · intro s1 users h
    unfold createUser
    simp [h]

/-- C5 counterexample: the backend reports no created record — the response
is `\x7b user: [] \x7d`, an empty array — and yet `createUser` does not throw: it
returns `ok none` (JavaScript `undefined`), because the source only checks
`!result || !result.user` and an empty array is truthy. -/
theorem createUser_no_record_no_throw :
    noRecordT.run () (Req.addUser sampleFragments.User [stripUserId u0]) =
      ((), .ok (some [])) ∧
    (createUser sampleFragments noRecordT () u0).2.2 = .ok none :=
  ⟨rfl, rfl⟩

/-- C3: single-use verification tokens. For every backend holding a record
with the given (identifier, token) pair, the first `useVerificationToken`
call returns that pair's record and deletes every record matching the pair,
and a second call with the same pair returns null because no matching
record remains (backend delete-mutation semantics modelled from the spec). -/
theorem useVerificationToken_single_use (fr : Fragments) (b : Backend)
    (ident : String) (tok : String)
    (h : ∃ t ∈ b.tokens, t.identifier = ident ∧ t.token = tok) :
    (∃ t, (useVerificationToken fr serveT b ident tok).2.2 = .ok (some t) ∧
      t.identifier = ident ∧ t.token = tok) ∧
    (useVerificationToken fr serveT
      (useVerificationToken fr serveT b ident tok).1 ident tok).2.2 = .ok none := by
  obtain ⟨t, htmem, hti, htt⟩ := h
  have hmem : t ∈ b.tokens.filter (fun t => decide (t.token = tok ∧ t.identifier = ident)) :=
    List.mem_filter.mpr ⟨htmem, by simp [hti, htt]⟩
  have hne : b.tokens.filter (fun t => decide (t.token = tok ∧ t.identifier = ident)) ≠ [] := by
    intro hnil
    rw [hnil] at hmem
    exact absurd hmem (List.not_mem_nil t)
  obtain ⟨t0, ht0⟩ := exists_head?_of_ne_nil hne
  have ht0mem := List.mem_of_mem_head? ht0
  have ht0props := (List.mem_filter.mp ht0mem).2
  rw [decide_eq_true_eq] at ht0props
  constructor
  · refine ⟨t0, ?_, ht0props.2, ht0props.1⟩
    have hred : (useVerificationToken fr serveT b ident tok).2.2 =
        .ok ((b.tokens.filter
          (fun t => decide (t.token = tok ∧ t.identifier = ident))).head?) := rfl
    rw [hred, ht0]
  · have hnil2 : ((b.tokens.filter
        (fun t => decide (¬ (t.token = tok ∧ t.identifier = ident)))).filter
        (fun t => decide (t.token = tok ∧ t.identifier = ident))) = [] := by
      refine List.filter_eq_nil_iff.mpr ?_
      intro a ha
      have := (List.mem_filter.mp ha).2
      rw [decide_eq_true_eq] at this
      simpa using this
    have hred2 : (useVerificationToken fr serveT
        (useVerificationToken fr serveT b ident tok).1 ident tok).2.2 =
        .ok (((b.tokens.filter
            (fun t => decide (¬ (t.token = tok ∧ t.identifier = ident)))).filter
          (fun t => decide (t.token = tok ∧ t.identifier = ident))).head?) := rfl
    rw [hred2, hnil2]
    rfl

/-- C1: the `deleteUser` algorithm. The first request is always the fetch
of the user together with its linked account ids and session tokens; when
the fetch reports no user the call returns null (no error) after that
single request; when it reports a user, the second request deletes the user
by id — a zero-record response there makes the call throw — and a third
request, carrying both the delete-accounts-by-collected-ids clause and the
delete-sessions-by-collected-tokens clause, is issued if and only if the
fetched user had at least one linked account or at least one linked
session; in every successful case the deleted record reported by the second
response is returned. -/
theorem deleteUser_algorithm {σ : Type} (fr : Fragments) (T : Transport σ) (s : σ)
    (uid : String) :
    ((deleteUser fr T s uid).2.1.head? = some (Req.getUserWithRefs fr.User uid)) ∧
    (∀ s1 v, T.run s (Req.getUserWithRefs fr.User uid) = (s1, .ok v) →
      (v.bind List.head? = none →
        deleteUser fr T s uid = (s1, [Req.getUserWithRefs fr.User uid], .ok none)) ∧
      (∀ user, v.bind List.head? = some user →
        ∀ s2 w, T.run s1 (Req.deleteUserM fr.User [uid]) = (s2, .ok w) →
          (w.bind List.head? = none →
            deleteUser fr T s uid =
              (s2, [Req.getUserWithRefs fr.User uid, Req.deleteUserM fr.User [uid]],
               .error (.adapter "Failed to delete user"))) ∧
          (∀ du, w.bind List.head? = some du →
            (user.accounts = [] ∧ user.sessions = [] →
              deleteUser fr T s uid =
                (s2, [Req.getUserWithRefs fr.User uid, Req.deleteUserM fr.User [uid]],
                 .ok (some du))) ∧
            ((user.accounts ≠ [] ∨ user.sessions ≠ []) →
              ∀ s3 c, T.run s2 (Req.deleteAccountsAndSessions
                  (user.accounts.map (fun x => x.id))
                  (user.sessions.map (fun x => x.sessionToken))) = (s3, .ok c) →
                deleteUser fr T s uid =
                  (s3, [Req.getUserWithRefs fr.User uid, Req.deleteUserM fr.User [uid],
                        Req.deleteAccountsAndSessions
                          (user.accounts.map (fun x => x.id))
                          (user.sessions.map (fun x => x.sessionToken))],
                   .ok (some du)))))) := by
  constructor
  · unfold deleteUser
    rcases h1 : T.run s (Req.getUserWithRefs fr.User uid) with ⟨s1, r⟩
    cases r with
    | error e => simp [h1]
    | ok v =>
      simp only [h1]
      rcases hv : v.bind List.head? with _ | user
      · simp
      · rcases h2 : T.run s1 (Req.deleteUserM fr.User [uid]) with ⟨s2, r2⟩
        cases r2 with
        | error e => simp [h2]
        | ok w =>
          simp only [h2]
          rcases hw : w.bind List.head? with _ | du
          · simp
          · simp only []
            split
            · split <;> simp
            · simp
  · intro s1 v h1
    constructor
    · intro hv
      unfold deleteUser
      simp [h1, hv]
    · intro user hv s2 w h2
      constructor
      · intro hw
        unfold deleteUser
        simp [h1, hv, h2, hw]
      · intro du hw
        constructor
        · rintro ⟨hA, hS⟩
          unfold deleteUser
          simp [h1, hv, h2, hw, hA, hS]
        · intro hor s3 c h3
          have hc : (user.accounts.length > 0 || user.sessions.length > 0) = true := by
            rcases hor with h | h <;> simp [List.length_pos, h]
          unfold deleteUser
          simp [h1, hv, h2, hw, hc, h3]

/-- C1 witness: against the modelled backend holding no user `zzz`, the
fetch reports no user and `deleteUser` returns null after that single
request. -/
theorem deleteUser_algorithm_witness :
    serveT.run b0 (Req.getUserWithRefs sampleFragments.User "zzz") =
      (b0, .ok (some [])) ∧
    deleteUser sampleFragments serveT b0 "zzz" =
      (b0, [Req.getUserWithRefs sampleFragments.User "zzz"], .ok none) :=
  ⟨rfl,
   ((deleteUser_algorithm sampleFragments serveT b0 "zzz").2 b0 (some []) rfl).1 rfl⟩

/-- C9: when the third request of `deleteUser` (the cascade cleanup of
linked accounts and sessions) throws, the error propagates to the caller
and the deleted user record is never returned — even though the second
request already deleted the user and that deletion is not rolled back: on
this path the caller observes an exception while the backend state has
changed (no user with the deleted id remains), and all three requests were
issued. -/
theorem deleteUser_cascade_error_propagates (fr : Fragments) (b : Backend)
    (uid : String) (hu : ∃ u ∈ b.users, u.id = uid)
    (ha : ∃ a ∈ b.accounts, a.userId = uid) :
    ((deleteUser fr cascadeFailT b uid).2.2 = .error (.transport "cascade failed")) ∧
    (∀ u ∈ (deleteUser fr cascadeFailT b uid).1.users, u.id ≠ uid) ∧
    ((deleteUser fr cascadeFailT b uid).2.1.length = 3) := by
  obtain ⟨u, humem, huid⟩ := hu
  have hfind : (b.users.find? (fun x => decide (x.id = uid))).isSome :=
    List.find?_isSome.mpr ⟨u, humem, by simp [huid]⟩
  obtain ⟨u0f, h1⟩ := Option.isSome_iff_exists.mp hfind
  have hmemrem : u ∈ b.users.filter (fun x => decide (x.id ∈ [uid])) :=
    List.mem_filter.mpr ⟨humem, by simp [huid]⟩
  have hremne : b.users.filter (fun x => decide (x.id ∈ [uid])) ≠ [] := by
    intro hnil
    rw [hnil] at hmemrem
    exact absurd hmemrem (List.not_mem_nil u)
  obtain ⟨du, hdu⟩ := exists_head?_of_ne_nil hremne
  obtain ⟨a, hamem, haid⟩ := ha
  have hmema : a ∈ b.accounts.filter (fun x => decide (x.userId = uid)) :=
    List.mem_filter.mpr ⟨hamem, by simp [haid]⟩
  have hfilne : b.accounts.filter (fun x => decide (x.userId = uid)) ≠ [] := by
    intro hnil
    rw [hnil] at hmema
    exact absurd hmema (List.not_mem_nil a)
  have hcond : 0 < (b.accounts.filter (fun x => decide (x.userId = uid))).length :=
    List.length_pos.mpr hfilne
  refine ⟨?_, ?_, ?_⟩
  · unfold deleteUser
    simp [cascadeFailT, serve, h1, hdu, hcond]
  · intro u' hu'
    unfold deleteUser at hu'
    simp [cascadeFailT, serve, h1, hdu, hcond] at hu'
    exact hu'.2
  · unfold deleteUser
    simp [cascadeFailT, serve, h1, hdu, hcond]

/-- C9 witness: on the sample backend — one user `u1` with one linked
account and one linked session — the failing cascade makes `deleteUser`
surface the transport error. -/
theorem deleteUser_cascade_error_propagates_witness :
    (∃ u ∈ b0.users, u.id = "u1") ∧ (∃ a ∈ b0.accounts, a.userId = "u1") ∧
    (deleteUser sampleFragments cascadeFailT b0 "u1").2.2 =
      .error (.transport "cascade failed") :=
  ⟨by decide, by decide,
   (deleteUser_cascade_error_propagates sampleFragments b0 "u1"
     (by decide) (by decide)).1⟩

/-- C2: after a successful `deleteUser` on an existing user id, the
modelled backend holds no Account or Session record pointing to that user;
`getUser` on that id then reports no user, and `getUserByAccount` for each
previously linked (provider, providerAccountId) pair — assuming the pair
identified accounts of that user only, as the data model's composite-key
uniqueness demands — returns null (backend query/mutation semantics
modelled from the spec). -/
theorem deleteUser_leaves_no_orphans (fr : Fragments) (b : Backend) (uid : String)
    (hu : ∃ u ∈ b.users, u.id = uid) :
    (∃ du, (deleteUser fr serveT b uid).2.2 = .ok (some du)) ∧
    (∀ a ∈ (deleteUser fr serveT b uid).1.accounts, a.userId ≠ uid) ∧
    (∀ sn ∈ (deleteUser fr serveT b uid).1.sessions, sn.userId ≠ uid) ∧
    ((getUser fr serveT (deleteUser fr serveT b uid).1 uid).2.2 = .ok none) ∧
    (∀ p pid,
      (∃ a ∈ b.accounts, a.userId = uid ∧ a.provider = p ∧ a.providerAccountId = pid) →
      (∀ a ∈ b.accounts, a.provider = p → a.providerAccountId = pid → a.userId = uid) →
      (getUserByAccount fr serveT (deleteUser fr serveT b uid).1 p pid).2.2 = .ok none) := by
  obtain ⟨u, humem, huid⟩ := hu
  have hfind : (b.users.find? (fun x => decide (x.id = uid))).isSome :=
    List.find?_isSome.mpr ⟨u, humem, by simp [huid]⟩
  obtain ⟨u0f, h1⟩ := Option.isSome_iff_exists.mp hfind
  have hacc : ∀ a ∈ (deleteUser fr serveT b uid).1.accounts,
      a ∈ b.accounts ∧ a.userId ≠ uid := by
    intro a' ha'
    unfold deleteUser at ha'
    by_cases hcond : 0 < (b.accounts.filter (fun a => decide (a.userId = uid))).length ∨
        0 < (b.sessions.filter (fun sn => decide (sn.userId = uid))).length
    · simp [serveT, serve, h1, hcond] at ha'
      refine ⟨ha'.1, fun heq => ?_⟩
      exact ha'.2 a' ha'.1 heq rfl
    · simp [serveT, serve, h1, hcond] at ha'
      refine ⟨ha', fun heq => ?_⟩
      have hnpos : ¬ 0 < (b.accounts.filter (fun a => decide (a.userId = uid))).length :=
        fun hp => hcond (Or.inl hp)
      have hmemf : a' ∈ b.accounts.filter (fun a => decide (a.userId = uid)) :=
        List.mem_filter.mpr ⟨ha', by simp [heq]⟩
      exact hnpos (List.length_pos.mpr (fun hnil => by
        rw [hnil] at hmemf
        exact absurd hmemf (List.not_mem_nil a')))
  have hsess : ∀ sn ∈ (deleteUser fr serveT b uid).1.sessions, sn.userId ≠ uid := by
    intro sn' hs'
    unfold deleteUser at hs'
    by_cases hcond : 0 < (b.accounts.filter (fun a => decide (a.userId = uid))).length ∨
        0 < (b.sessions.filter (fun sn => decide (sn.userId = uid))).length
    · simp [serveT, serve, h1, hcond] at hs'
      intro heq
      exact hs'.2 sn' hs'.1 heq rfl
    · simp [serveT, serve, h1, hcond] at hs'
      intro heq
      have hnpos : ¬ 0 < (b.sessions.filter (fun sn => decide (sn.userId = uid))).length :=
        fun hp => hcond (Or.inr hp)
      have hmemf : sn' ∈ b.sessions.filter (fun sn => decide (sn.userId = uid)) :=
        List.mem_filter.mpr ⟨hs', by simp [heq]⟩
      exact hnpos (List.length_pos.mpr (fun hnil => by
        rw [hnil] at hmemf
        exact absurd hmemf (List.not_mem_nil sn')))
  have husers : (deleteUser fr serveT b uid).1.users =
      b.users.filter (fun x => !decide (x.id = uid)) := by
    unfold deleteUser
    by_cases hcond : 0 < (b.accounts.filter (fun a => decide (a.userId = uid))).length ∨
        0 < (b.sessions.filter (fun sn => decide (sn.userId = uid))).length <;>
      simp [serveT, serve, h1, hcond]
  refine ⟨⟨u0f, ?_⟩, fun a ha => (hacc a ha).2, hsess, ?_, ?_⟩
  · unfold deleteUser
    by_cases hcond : 0 < (b.accounts.filter (fun a => decide (a.userId = uid))).length ∨
        0 < (b.sessions.filter (fun sn => decide (sn.userId = uid))).length <;>
      simp [serveT, serve, h1, hcond]
  · have hg : (getUser fr serveT (deleteUser fr serveT b uid).1 uid).2.2 =
        .ok ((deleteUser fr serveT b uid).1.users.find? (fun x => decide (x.id = uid))) :=
      rfl
    rw [hg, husers]
    have : (b.users.filter (fun x => !decide (x.id = uid))).find?
        (fun x => decide (x.id = uid)) = none := by
      rw [List.find?_eq_none]
      intro x hx
      have := (List.mem_filter.mp hx).2
      simp at this
      simp [this]
    rw [this]
  · intro p pid hex huniq
    have hg2 : (getUserByAccount fr serveT (deleteUser fr serveT b uid).1 p pid).2.2 =
        .ok ((((deleteUser fr serveT b uid).1.accounts.filter
            (fun a => decide (a.providerAccountId = pid ∧ a.provider = p))).map
          (fun a => (deleteUser fr serveT b uid).1.users.find?
            (fun x => decide (x.id = a.userId)))).head?.join) := rfl
    have hfilnil : (deleteUser fr serveT b uid).1.accounts.filter
        (fun a => decide (a.providerAccountId = pid ∧ a.provider = p)) = [] := by
      rw [List.filter_eq_nil_iff]
      intro a ha
      obtain ⟨hmem, hne⟩ := hacc a ha
      simp only [decide_eq_true_eq]
      rintro ⟨hpid, hp⟩
      exact hne (huniq a hmem hp hpid)
    rw [hg2, hfilnil]
    rfl

/-- C2 witness: on the sample backend, deleting user `u1` (one linked
account, one linked session) succeeds and the previously linked
(github, gh-1) pair afterwards resolves to no user. -/
theorem deleteUser_leaves_no_orphans_witness :
    (∃ u ∈ b0.users, u.id = "u1") ∧
    (getUserByAccount sampleFragments serveT
      (deleteUser sampleFragments serveT b0 "u1").1 "github" "gh-1").2.2 = .ok none :=
  ⟨by decide,
   (deleteUser_leaves_no_orphans sampleFragments b0 "u1" (by decide)).2.2.2.2
     "github" "gh-1" (by decide) (by decide)⟩

/-- C6 (amended): every read operation (`getUser`, `getUserByEmail`,
`getUserByAccount`, `getSessionAndUser`) returns null and never throws when
no matching record is found — in particular `getUserByEmail` on a
nonexistent email returns null, never throws; the writes `updateUser`,
`linkAccount`, `createSession`, `createVerificationToken` and the
user-delete step of `deleteUser` throw a generic error when the backend
returns no record; `createUser`, however, throws only when the response or
its `user` field is missing, and returns `undefined` without throwing when
the backend returns an empty `user` array. -/
theorem reads_return_null_writes_throw {σ : Type} (fr : Fragments) (T : Transport σ)
    (s : σ) (i : String) (email : String) (p : String) (pid : String) (tok : String)
    (user : User) (account : Account) (uid : String) (expires : Int)
    (vt : VerificationToken) :
    (∀ s1 v, T.run s (Req.getUserQ fr.User i) = (s1, .ok v) →
      (getUser fr T s i).2.2 = .ok v) ∧
    (∀ s1 v, T.run s (Req.queryUserByEmail fr.User email) = (s1, .ok v) →
      (getUserByEmail fr T s email).2.2 = .ok (v.bind List.head?)) ∧
    (∀ s1 v, T.run s (Req.queryAccount fr.User pid p) = (s1, .ok v) →
      (getUserByAccount fr T s p pid).2.2 = .ok (v.bind List.head?).join) ∧
    (∀ s1 v, T.run s (Req.getSessionAndUserQ fr.Session fr.User tok) = (s1, .ok v) →
      v.bind List.head? = none → (getSessionAndUser fr T s tok).2.2 = .ok none) ∧
    (∀ s1 v, T.run s (Req.updateUserM fr.User user.id (stripUserId user)) = (s1, .ok v) →
      v.bind List.head? = none →
      (updateUser fr T s user).2.2 = .error (.adapter "Failed to update user")) ∧
    (∀ s1 v, T.run s (Req.addAccount fr.Account [stripAccountId account]) = (s1, .ok v) →
      v.bind List.head? = none →
      (linkAccount fr T s account).2.2 = .error (.adapter "Failed to link account")) ∧
    (∀ s1 v, T.run s (Req.addSession fr.Session [⟨tok, expires, uid⟩]) = (s1, .ok v) →
      v.bind List.head? = none →
      (createSession fr T s tok (some uid) expires).2.2 =
        .error (.adapter "Failed to create session")) ∧
    (∀ s1 v, T.run s (Req.addVerificationToken [vt]) = (s1, .ok v) →
      v.bind List.head? = none →
      (createVerificationToken T s vt).2.2 =
        .error (.adapter "Failed to create verification token")) ∧
    (∀ s1 v userw, T.run s (Req.getUserWithRefs fr.User i) = (s1, .ok v) →
      v.bind List.head? = some userw →
      ∀ s2 w, T.run s1 (Req.deleteUserM fr.User [i]) = (s2, .ok w) →
        w.bind List.head? = none →
        (deleteUser fr T s i).2.2 = .error (.adapter "Failed to delete user")) ∧
    (∀ s1, T.run s (Req.addUser fr.User [stripUserId user]) = (s1, .ok none) →
      (createUser fr T s user).2.2 = .error (.adapter "Failed to create user")) ∧
    (∀ s1, T.run s (Req.addUser fr.User [stripUserId user]) = (s1, .ok (some [])) →
      (createUser fr T s user).2.2 = .ok none) := by
  refine ⟨?_, ?_, ?_, ?_, ?_, ?_, ?_, ?_, ?_, ?_, ?_⟩
  · intro s1 v h
    unfold getUser
    simp [h]
  · intro s1 v h
    unfold getUserByEmail
    simp [h]
  · intro s1 v h
    unfold getUserByAccount
    simp [h]
  · intro s1 v h hb
    unfold getSessionAndUser
    simp [h, hb]
  · intro s1 v h hb
    unfold updateUser
    simp [h, hb]
  · intro s1 v h hb
    unfold linkAccount
    simp [h, hb]
  · intro s1 v h hb
    unfold createSession
    simp [h, hb]
  · intro s1 v h hb
    unfold createVerificationToken
    simp [h, hb]
  · intro s1 v userw h hb s2 w h2 hw
    unfold deleteUser
    simp [h, hb, h2, hw]
  · intro s1 h
    unfold createUser
    simp [h]
  · intro s1 h
    unfold createUser
    simp [h]

/-- C6 counterexample: `createUser` is listed among the writes that must
throw when the backend returns no record, yet on the zero-record response
`\x7b user: [] \x7d` it returns `ok none` instead of an error, falsifying the
claim as stated. -/
theorem createUser_breaks_write_throw_convention :
    noRecordT.run ()
      (Req.addUser sampleFragments.User
        [stripUserId ⟨"u9", none, "grace@example.com", none, none⟩]) =
      ((), .ok (some [])) ∧
    (createUser sampleFragments noRecordT ()
      ⟨"u9", none, "grace@example.com", none, none⟩).2.2 = .ok none :=
  ⟨rfl, rfl⟩

/-- C6 witness: against the zero-record transport, `getUserByEmail` on a
nonexistent email returns null without throwing and `updateUser` throws its
generic error. -/
theorem reads_return_null_writes_throw_witness :
    (getUserByEmail sampleFragments noRecordT () "nobody@example.com").2.2 =
      .ok none ∧
    (updateUser sampleFragments noRecordT () u0).2.2 =
      .error (.adapter "Failed to update user") :=
  ⟨(reads_return_null_writes_throw sampleFragments noRecordT ()
      "x" "nobody@example.com" "x" "x" "x" u0 acc0 "x" 0 vt0).2.1 () (some []) rfl,
   (reads_return_null_writes_throw sampleFragments noRecordT ()
      "x" "nobody@example.com" "x" "x" "x" u0 acc0 "x" 0 vt0).2.2.2.2.1
     () (some []) rfl rfl⟩

/-- C5 witness: the amended `createUser` behaviour at the zero-record
transport — the mutation carries the id-stripped payload and the call
returns the head of the empty array (`none`). -/
theorem createUser_strips_id_and_checks_witness :
    (createUser sampleFragments noRecordT () u0).2.1 =
      [Req.addUser sampleFragments.User [stripUserId u0]] ∧
    (createUser sampleFragments noRecordT () u0).2.2 = .ok none :=
  ⟨(createUser_strips_id_and_checks sampleFragments noRecordT () u0).1,
   (createUser_strips_id_and_checks sampleFragments noRecordT () u0).2.2.2
     () [] rfl⟩

/-- C3 witness: on the sample backend the token pair is present, and the
second `useVerificationToken` call returns null. -/
theorem useVerificationToken_single_use_witness :
    (∃ t ∈ b0.tokens, t.identifier = "ada@example.com" ∧ t.token = "vt-1") ∧
    (useVerificationToken sampleFragments serveT
      (useVerificationToken sampleFragments serveT b0 "ada@example.com" "vt-1").1
      "ada@example.com" "vt-1").2.2 = .ok none :=
  ⟨by decide,
   (useVerificationToken_single_use sampleFragments b0 "ada@example.com" "vt-1"
     (by decide)).2⟩

/-- C7 witness: on the sample backend the join query for `tok1` returns
both sides, and the call returns the session-and-user pair. -/
theorem getSessionAndUser_join_spec_witness :
    serveT.run b0 (Req.getSessionAndUserQ sampleFragments.Session
        sampleFragments.User "tok1") =
      (b0, .ok (some [⟨some sess0, some u0⟩])) ∧
    (getSessionAndUser sampleFragments serveT b0 "tok1").2.2 =
      .ok (some ⟨sess0, u0⟩) :=
  ⟨rfl,
   (((getSessionAndUser_join_spec sampleFragments serveT b0 "tok1").2
       b0 (some [⟨some sess0, some u0⟩]) rfl).2 ⟨some sess0, some u0⟩ rfl).2
     sess0 u0 rfl rfl⟩

/-- C8 witness: on the sample backend no account matches the pair
(nope, gh-9), and `unlinkAccount` returns `none` without throwing. -/
theorem unlinkAccount_reports_backend_witness :
    (∀ a ∈ b0.accounts, ¬ (a.providerAccountId = "gh-9" ∧ a.provider = "nope")) ∧
    (unlinkAccount sampleFragments serveT b0 "nope" "gh-9").2.2 = .ok none :=
  ⟨by decide,
   (unlinkAccount_reports_backend sampleFragments serveT b0 b0 "nope" "gh-9").2.2.2.2
     (by decide)⟩
